import Mathlib

/-!
Shallow embedding of the Pinterest backend (Simi129/pinterest-backend) core:
post lifecycle scheduler/publisher and OAuth connection state machine.

Sources embedded:
  - app/database.py  : connection and post store operations (Supabase rows are
    modelled as Lean lists; a row read outcome is an `Except` value so that a
    failing store read can be expressed).
  - app/main.py      : `publish_post`, `schedule_publish`, and the endpoint
    handlers `publish_now_endpoint`, `schedule_post_endpoint`,
    `pinterest_callback`, `pinterest_status`.
  - app/models.py    : the pydantic request models (note: `PublishNowRequest`
    and `SchedulePostRequest` declare NO `image_base64` field).
  - app/oauth.py / app/pinterest.py : outbound HTTP operations are modelled as
    oracle functions returning `Except` (an exception is the `.error` case).

Machine conventions: timestamps are `Int` seconds; Python truthiness of an
optional string (`None` and `""` are falsy) is `pyTruthy`.
-/

namespace PinterestBackend

/-- Python truthiness of an optional string: `None` and `""` are falsy. -/
def pyTruthy : Option String → Bool
  | none => false
  | some s => s != ""

/-- Python truthiness of a plain string: `""` is falsy. -/
def pyTruthyStr (s : String) : Bool := s != ""

/-- The `media_source` payload built in `publish_post` (app/main.py:61-72):
inline base64 data takes precedence over a remote url. -/
inductive MediaSource where
  | image_base64 (data : String)
  | image_url (url : String)
deriving DecidableEq, Repr

/-- One outbound HTTP operation performed by the publish path.  `createPin`
records the bearer access token the `PinterestClient` was constructed with
(app/main.py:58) plus the arguments of `PinterestClient.create_pin`
(app/pinterest.py:172); `refreshToken` would be a call to
`refresh_access_token` (app/oauth.py:134), which the publish path never makes. -/
inductive ExtCall where
  | createPin (access_token board_id : String) (media : MediaSource)
      (title description link : String)
  | refreshToken (refresh_token : String)
deriving DecidableEq, Repr

/-- Is an external call a token-refresh exchange? -/
def isRefreshCall : ExtCall → Bool
  | .refreshToken _ => true
  | _ => false

/-- Is an external call a create-pin call? -/
def isCreatePinCall : ExtCall → Bool
  | .createPin _ _ _ _ _ _ => true
  | _ => false

/-- A row of the `pinterest_connections` table, as written by
`pinterest_callback` (app/main.py:200-208) and read by
`get_pinterest_connection` (app/database.py:43). -/
structure Connection where
  user_id : String
  access_token : String
  refresh_token : Option String := none
  expires_at : Option Int := none
  pinterest_user_id : Option String := none
  pinterest_username : Option String := none
  scopes : List String := []
  created_at : Option String := none
deriving DecidableEq, Repr

/-- A row of the `posts` table, as written by the publish/schedule endpoints
(app/main.py:364-382, 415-434) and mutated by `update_post_status`
(app/database.py:145). -/
structure Post where
  id : String
  user_id : String
  board_id : String
  title : String
  description : Option String := none
  link : Option String := none
  image_url : Option String := none
  image_base64 : Option String := none
  scheduled_at : Option Int := none
  status : String
  pinterest_pin_id : Option String := none
  error_message : Option String := none
deriving DecidableEq, Repr

/-- A row of the `oauth_states` table: state token, bound user id, creation
time.  The table layout is taken from the calls in app/main.py:158,184 and the
spec (section 4.2). -/
structure OAuthStateEntry where
  state : String
  user_id : String
  created_at : Int
deriving DecidableEq, Repr

/-- The persistent store (Supabase tables).  `conn_read_error` injects a
failing read of the `pinterest_connections` table, so that the `try/except`
of `get_pinterest_connection` (app/database.py:47-55) is observable. -/
structure DB where
  connections : List Connection := []
  posts : List Post := []
  oauth_states : List OAuthStateEntry := []
  conn_read_error : Option String := none
deriving DecidableEq, Repr

/-- Outcome of the Supabase select on `pinterest_connections` filtered by
`user_id` (app/database.py:48-51): either the matching rows or a raised
exception. -/
def connRead (db : DB) (user_id : String) : Except String (List Connection) :=
  match db.conn_read_error with
  | some e => .error e
  | none => .ok (db.connections.filter (fun c => c.user_id == user_id))

/-- `get_pinterest_connection` (app/database.py:43-55) applied to the outcome
of the store read: `response.data[0] if response.data else None`, and the
`except` clause returns `None` when the read itself raised. -/
def get_pinterest_connection (read_result : Except String (List Connection)) :
    Option Connection :=
  match read_result with
  | .ok rows => rows.head?
  | .error _ => none

/-- `create_pinterest_connection` (app/database.py:15-41): update the existing
row for `user_id` when one exists, otherwise insert a new row. -/
def create_pinterest_connection (db : DB) (c : Connection) : DB :=
  if db.connections.any (fun x => x.user_id == c.user_id) then
    { db with connections :=
        db.connections.map (fun x => if x.user_id == c.user_id then c else x) }
  else
    { db with connections := db.connections ++ [c] }

/-- `get_post` (app/database.py:117-129): `response.data[0] if response.data
else None` for the rows matching `id`. -/
def get_post (db : DB) (post_id : String) : Option Post :=
  (db.posts.filter (fun p => p.id == post_id)).head?

/-- The column update built by `update_post_status` (app/database.py:154-161)
applied to one row: `status` is always written; `pinterest_pin_id` and
`error_message` are added to the update dict only when truthy. -/
def applyStatusUpdate (p : Post) (status : String)
    (pinterest_pin_id error_message : Option String) : Post :=
  { p with
    status := status,
    pinterest_pin_id :=
      if pyTruthy pinterest_pin_id then pinterest_pin_id else p.pinterest_pin_id,
    error_message :=
      if pyTruthy error_message then error_message else p.error_message }

/-- `update_post_status` (app/database.py:145-171): apply the update dict to
every row whose `id` matches. -/
def update_post_status (db : DB) (post_id status : String)
    (pinterest_pin_id error_message : Option String) : DB :=
  { db with posts := db.posts.map (fun p =>
      if p.id == post_id then applyStatusUpdate p status pinterest_pin_id error_message
      else p) }

/-- Modelled from the spec: `get_oauth_state` is imported by app/main.py:21
from `app.database` but the function is absent from src/app/database.py.  Per
spec section 4.2, `resolveState(token)` atomically looks up and deletes the
entry for the token and returns the bound user id, or absent when the token
was never issued, already consumed, or expired (freshness is re-checked
against `max_age` at resolution time). -/
def get_oauth_state (entries : List OAuthStateEntry) (now max_age : Int)
    (token : String) : Option String × List OAuthStateEntry :=
  match entries.find? (fun e => e.state == token) with
  | none => (none, entries)
  | some e =>
    if now - e.created_at ≤ max_age then
      (some e.user_id, entries.filter (fun x => x.state != token))
    else
      (none, entries.filter (fun x => x.state != token))

/-- A Python exception escaping an endpoint body: an `HTTPException(status,
detail)`, an `AttributeError` (rendered as `"object has no attribute " ++
attr`), or any other exception carrying `str(e)`. -/
inductive PyExc where
  | http (status : Nat) (detail : String)
  | attributeError (attr : String)
  | exc (message : String)
deriving DecidableEq, Repr

/-- An HTTP response as observed by the caller of an endpoint: a redirect, an
error status with detail, or a JSON object rendered as key/value pairs. -/
inductive Response where
  | redirect (url : String)
  | httpError (status : Nat) (detail : String)
  | json (fields : List (String × String))
deriving DecidableEq, Repr

/-- Does a response carry HTTP status 400? -/
def isHttp400 : Response → Bool
  | .httpError s _ => s == 400
  | _ => false

/-- The pydantic model `PublishNowRequest` (app/models.py:29-39).  Its fields
are exactly `board_id`, `image_url` (required), `title`, `description`,
`link`, `user_id`, `keywords` — there is NO `image_base64` field. -/
structure PublishNowRequest where
  board_id : String
  image_url : String
  title : String
  description : Option String := some ""
  link : Option String := none
  user_id : String
  keywords : Option (List String) := none
deriving DecidableEq, Repr

/-- The pydantic model `SchedulePostRequest` (app/models.py:41-52): as
`PublishNowRequest` plus a required `scheduled_at`; again NO `image_base64`
field. -/
structure SchedulePostRequest where
  board_id : String
  image_url : String
  title : String
  description : Option String := some ""
  link : Option String := none
  scheduled_at : Int
  user_id : String
  keywords : Option (List String) := none
deriving DecidableEq, Repr

/-- The raw JSON body of a publish request, before pydantic validation.  It
may carry an `image_base64` key (the spec's inline-image variant), which is
not a declared field of the models above. -/
structure RawPublishBody where
  user_id : Option String := none
  board_id : Option String := none
  title : Option String := none
  description : Option String := none
  link : Option String := none
  image_url : Option String := none
  image_base64 : Option String := none
deriving DecidableEq, Repr

/-- FastAPI/pydantic validation of a request body against `PublishNowRequest`
(app/models.py:29-39): the required fields `board_id`, `image_url`, `title`,
`user_id` must all be present (else the framework answers 422 before the
handler runs); undeclared keys such as `image_base64` are ignored. -/
def parsePublishNowRequest (b : RawPublishBody) : Except Nat PublishNowRequest :=
  match b.board_id, b.image_url, b.title, b.user_id with
  | some bd, some iu, some t, some u =>
    .ok { board_id := bd, image_url := iu, title := t,
          description := some (b.description.getD ""), link := b.link,
          user_id := u }
  | _, _, _, _ => .error 422

/-- The signature of the external create-pin operation
(`PinterestClient.create_pin`, app/pinterest.py:172): access token, board id,
media source, title, description, link; returns the created pin's `id` field
(`pin.get("id")`, possibly absent) or raises. -/
abbrev CreatePin : Type :=
  String → String → MediaSource → String → String → String →
    Except String (Option String)

/-- `publish_post` (app/main.py:42-92).  Returns the new store and the list of
outbound external calls made.  Faithful control flow: missing post → silent
return; missing connection → post `failed` with "Pinterest not connected";
media chosen with base64 taking precedence (`post.get("image_base64")` truthy
first, app/main.py:61-72); neither image → `failed` "No image provided";
otherwise one `create_pin` call, then `published` with the pin id on success
or `failed` with `str(e)` on exception.  No status check on the loaded post,
no expiry check and no token refresh appear anywhere in the source function. -/
def publish_post (create_pin : CreatePin) (db : DB) (post_id user_id : String) :
    DB × List ExtCall :=
  match get_post db post_id with
  | none => (db, [])
  | some post =>
    match get_pinterest_connection (connRead db user_id) with
    | none =>
      (update_post_status db post_id "failed" none (some "Pinterest not connected"), [])
    | some connection =>
      match (if pyTruthy post.image_base64 then
               some (MediaSource.image_base64 (post.image_base64.getD ""))
             else if pyTruthy post.image_url then
               some (MediaSource.image_url (post.image_url.getD ""))
             else none) with
      | none =>
        (update_post_status db post_id "failed" none (some "No image provided"), [])
      | some media =>
        match create_pin connection.access_token post.board_id media post.title
            (post.description.getD "") (post.link.getD "") with
        | .ok pin_id =>
          (update_post_status db post_id "published" pin_id none,
           [ExtCall.createPin connection.access_token post.board_id media
              post.title (post.description.getD "") (post.link.getD "")])
        | .error e =>
          (update_post_status db post_id "failed" none (some e),
           [ExtCall.createPin connection.access_token post.board_id media
              post.title (post.description.getD "") (post.link.getD "")])

/-- `schedule_publish` (app/main.py:94-106): `wait_seconds = scheduled_at -
now`; sleeps only when `wait_seconds > 0`, then calls `publish_post`.  The
first component is the total time slept before the single Publisher
invocation. -/
def schedule_publish (create_pin : CreatePin) (db : DB) (post_id user_id : String)
    (scheduled_at now : Int) : Int × (DB × List ExtCall) :=
  if scheduled_at - now > 0 then
    (scheduled_at - now, publish_post create_pin db post_id user_id)
  else
    (0, publish_post create_pin db post_id user_id)

/-- Body of `publish_now_endpoint` (app/main.py:350-395) up to its first
raised exception.  Missing connection → `HTTPException(401)` (line 357).
Otherwise line 360 evaluates `not request.image_url and not
request.image_base64`: when `image_url` is truthy the conjunction
short-circuits and line 374 then reads `request.image_base64`
unconditionally; when `image_url` is falsy the second conjunct of line 360
reads it.  `PublishNowRequest` declares no `image_base64` field, so either
path raises `AttributeError` before `create_post` (line 382) is reached. -/
def publish_now_core (db : DB) (req : PublishNowRequest) :
    Except PyExc (Response × DB) :=
  match get_pinterest_connection (connRead db req.user_id) with
  | none => .error (.http 401 "Pinterest not connected")
  | some _ => .error (.attributeError "image_base64")

/-- The `except HTTPException: raise / except Exception as e:
HTTPException(500, str(e))` wrapper shared by the publish endpoints
(app/main.py:391-395, 443-447), rendered as the response the caller sees. -/
def runEndpoint (db : DB) (r : Except PyExc (Response × DB)) : Response × DB :=
  match r with
  | .ok out => out
  | .error (.http s d) => (.httpError s d, db)
  | .error (.attributeError a) =>
    (.httpError 500 ("object has no attribute " ++ a), db)
  | .error (.exc m) => (.httpError 500 m, db)

/-- `publish_now_endpoint` (app/main.py:350-395) as seen by the caller. -/
def publish_now_endpoint (db : DB) (req : PublishNowRequest) : Response × DB :=
  runEndpoint db (publish_now_core db req)

/-- Body of `schedule_post_endpoint` (app/main.py:397-447) up to its first
raised exception.  Missing connection → 401 (line 404).  Line 407 evaluates
`not request.image_url and not request.image_base64`: a falsy `image_url`
makes the second conjunct read the undeclared `image_base64` field
(AttributeError); a truthy `image_url` short-circuits, line 411 then rejects
`scheduled_at <= now` with 400, and line 426 reads `request.image_base64`
(AttributeError) before `create_post` (line 434) is reached. -/
def schedule_post_core (db : DB) (req : SchedulePostRequest) (now : Int) :
    Except PyExc (Response × DB) :=
  match get_pinterest_connection (connRead db req.user_id) with
  | none => .error (.http 401 "Pinterest not connected")
  | some _ =>
    if pyTruthyStr req.image_url = false then
      .error (.attributeError "image_base64")
    else if req.scheduled_at ≤ now then
      .error (.http 400 "Scheduled time must be in the future")
    else
      .error (.attributeError "image_base64")

/-- `schedule_post_endpoint` (app/main.py:397-447) as seen by the caller. -/
def schedule_post_endpoint (db : DB) (req : SchedulePostRequest) (now : Int) :
    Response × DB :=
  runEndpoint db (schedule_post_core db req now)

/-- Token data returned by the external token endpoint
(`exchange_code_for_token`, app/oauth.py:62-119). -/
structure TokenData where
  access_token : String
  refresh_token : Option String := none
  expires_in : Option Int := none
  scope : Option String := none

/-- The Pinterest account identity returned by
`PinterestClient.get_user_info` (app/pinterest.py:21-35). -/
structure PinterestUser where
  id : Option String := none
  username : Option String := none

/-- Environment of `pinterest_callback`: the two outbound HTTP operations as
oracles (an exception is the `.error` case), the configured frontend URL, the
current time, and the state freshness window used by the (spec-modelled)
state resolution. -/
structure CallbackEnv where
  exchange_code : String → Except String TokenData
  user_info : String → Except String PinterestUser
  frontend_url : String
  now : Int
  state_max_age : Int

/-- Body of `pinterest_callback` (app/main.py:175-217) with the store threaded
through: resolve (and thereby consume) the state, raise
`HTTPException(400, "Invalid or expired state parameter")` when it is absent,
else exchange the code, fetch the Pinterest identity, build the connection
row (app/main.py:200-208; `expires_at` is set only for a truthy `expires_in`,
scopes split on ","), and upsert it. -/
def pinterest_callback_core (env : CallbackEnv) (db : DB) (code state : String) :
    Except PyExc Response × DB :=
  match get_oauth_state db.oauth_states env.now env.state_max_age state with
  | (none, states2) =>
    (.error (.http 400 "Invalid or expired state parameter"),
     { db with oauth_states := states2 })
  | (some user_id, states2) =>
    match env.exchange_code code with
    | .error e => (.error (.exc e), { db with oauth_states := states2 })
    | .ok token_data =>
      match env.user_info token_data.access_token with
      | .error e => (.error (.exc e), { db with oauth_states := states2 })
      | .ok pinterest_user =>
        let connection_data : Connection :=
          { user_id := user_id,
            access_token := token_data.access_token,
            refresh_token := token_data.refresh_token,
            expires_at :=
              match token_data.expires_in with
              | some n => if n != 0 then some (env.now + n) else none
              | none => none,
            pinterest_user_id := pinterest_user.id,
            pinterest_username := pinterest_user.username,
            scopes := (token_data.scope.getD "").splitOn "," }
        (.ok (.redirect (env.frontend_url ++ "?pinterest_connected=true")),
         create_pinterest_connection { db with oauth_states := states2 } connection_data)

/-- `pinterest_callback` (app/main.py:175-221) as the caller sees it.  The
handler has no `except HTTPException: raise` clause, so the bare
`except Exception` (line 218) catches every exception — the 400
`HTTPException` included — and answers with a redirect to the frontend
carrying `pinterest_error=true`. -/
def pinterest_callback (env : CallbackEnv) (db : DB) (code state : String) :
    Response × DB :=
  match pinterest_callback_core env db code state with
  | (.ok r, db2) => (r, db2)
  | (.error _, db2) => (.redirect (env.frontend_url ++ "?pinterest_error=true"), db2)

/-- `pinterest_status` (app/main.py:234-251): absent connection (including a
failed store read, which `get_pinterest_connection` converts to `None`) →
`connected: false`. -/
def pinterest_status (db : DB) (user_id : String) : Response :=
  match get_pinterest_connection (connRead db user_id) with
  | none => .json [("connected", "false")]
  | some c =>
    .json [("connected", "true"),
           ("pinterest_username", c.pinterest_username.getD ""),
           ("pinterest_user_id", c.pinterest_user_id.getD ""),
           ("connected_at", c.created_at.getD "")]

/-! Concrete fixtures used to evaluate the embedding on explicit inputs. -/

/-- A stored connection for user `u1` with a live token. -/
def connU1 : Connection := { user_id := "u1", access_token := "tok1" }

/-- A stored connection for `u1` whose `expires_at` (5) lies in the past and
which carries a refresh token. -/
def connExpired : Connection :=
  { user_id := "u1", access_token := "staletok",
    refresh_token := some "rt1", expires_at := some 5 }

/-- A post already in the terminal status `published`, with pin id `pin1`. -/
def postPublished : Post :=
  { id := "p1", user_id := "u1", board_id := "b1", title := "T",
    image_url := some "http://img/a.png", status := "published",
    pinterest_pin_id := some "pin1" }

/-- A post in status `publishing`, not yet published. -/
def postPublishing : Post :=
  { id := "p1", user_id := "u1", board_id := "b1", title := "T",
    image_url := some "http://img/a.png", status := "publishing" }

/-- Store holding a terminal post and a live connection for its user. -/
def dbTerminal : DB := { connections := [connU1], posts := [postPublished] }

/-- Store holding a pending post and only an expired connection. -/
def dbExpired : DB := { connections := [connExpired], posts := [postPublishing] }

/-- Store holding a pending post but no connection at all. -/
def dbNoConn : DB := { posts := [postPublishing] }

/-- Store holding a connection for `u1` and no posts. -/
def dbConnOnly : DB := { connections := [connU1] }

/-- The empty store. -/
def dbEmpty : DB := {}

/-- A store whose `pinterest_connections` read raises. -/
def dbFault : DB := { conn_read_error := some "store read failed" }

/-- External create-pin oracle that succeeds with pin id `pin2`. -/
def cpPin2 : CreatePin := fun _ _ _ _ _ _ => .ok (some "pin2")

/-- External create-pin oracle that raises. -/
def cpFail : CreatePin := fun _ _ _ _ _ _ => .error "boom"

/-- A well-formed publish-now request from `u1` with a remote image URL. -/
def reqPN : PublishNowRequest :=
  { board_id := "b1", image_url := "http://img/a.png", title := "T",
    user_id := "u1" }

/-- A schedule request whose `scheduled_at` (50) is in the past of now = 1000. -/
def reqSchedPast : SchedulePostRequest :=
  { board_id := "b1", image_url := "http://img/a.png", title := "T",
    scheduled_at := 50, user_id := "u1" }

/-- A schedule request whose `scheduled_at` (1060) is strictly after now = 1000. -/
def reqSchedFut : SchedulePostRequest :=
  { board_id := "b1", image_url := "http://img/a.png", title := "T",
    scheduled_at := 1060, user_id := "u1" }

/-- A raw publish-now body supplying only inline base64 image data. -/
def bodyBase64Only : RawPublishBody :=
  { user_id := some "u1", board_id := some "b1", title := some "T",
    image_base64 := some "QUFBQQ" }

/-- Callback environment: token exchange and identity fetch succeed,
frontend at `http://front`, now = 1000, freshness window 600. -/
def envCb : CallbackEnv :=
  { exchange_code := fun _ => .ok { access_token := "at1" },
    user_info := fun _ => .ok {},
    frontend_url := "http://front", now := 1000, state_max_age := 600 }

/-! Theorems.  Each claim of the specification is settled by one theorem,
preceded by helper lemmas where needed. -/

/-- Helper: after removing every entry bound to a token, no entry for that
token can be found. -/
theorem find_state_filter_ne (l : List OAuthStateEntry) (tok : String) :
    (l.filter (fun x => x.state != tok)).find? (fun e => e.state == tok) = none := by
  induction l with
  | nil => rfl
  | cons a t ih =>
    by_cases h : a.state = tok
    · simp [List.filter_cons, h, ih]
    · simp [List.filter_cons, List.find?_cons, h, ih]

/-- Helper: resolving a token that has no entry in the store returns absent. -/
theorem resolve_state_absent (l : List OAuthStateEntry) (now age : Int)
    (tok : String) (h : l.find? (fun e => e.state == tok) = none) :
    (get_oauth_state l now age tok).1 = none := by
  unfold get_oauth_state
  rw [h]

/-- Claim C1: resolving an OAuth state token is single-use.  After any
resolution of `tok` (in particular a successful one) the store retains no
readable entry for `tok`, and a second resolution of the same token — a
replayed callback — returns absent. -/
theorem resolve_state_single_use (entries : List OAuthStateEntry)
    (now1 age1 now2 age2 : Int) (tok : String) :
    (get_oauth_state entries now1 age1 tok).2.find? (fun e => e.state == tok) = none
    ∧ (get_oauth_state ((get_oauth_state entries now1 age1 tok).2) now2 age2 tok).1
        = none := by
  have hs : (get_oauth_state entries now1 age1 tok).2.find?
      (fun e => e.state == tok) = none := by
    unfold get_oauth_state
    cases hf : entries.find? (fun e => e.state == tok) with
    | none => simp only [hf]
    | some e => simp only [hf]; split <;> exact find_state_filter_ne entries tok
  exact ⟨hs, resolve_state_absent _ now2 age2 tok hs⟩

/-- Claim C2 counterexample: for the post `p1` whose status is already
`published` (with pin id `pin1`), a second Publisher invocation makes a fresh
external create-pin call (trace nonempty) and mutates the record (the stored
pin id becomes `pin2`). -/
theorem publish_post_not_monotonic_cex :
    (publish_post cpPin2 dbTerminal "p1" "u1").2 ≠ []
    ∧ get_post (publish_post cpPin2 dbTerminal "p1" "u1").1 "p1" ≠ get_post dbTerminal "p1" := by
  constructor
  · decide
  · decide

/-- Claim C2 (amended): the Publisher does not inspect the stored status.
For a post already `published` or `failed`, provided its user still has a
connection and the post carries an image, a second Publisher invocation
performs a fresh publish: it calls the external create-pin operation exactly
once more (at-most-once publication relies on the caller issuing a single
scheduling trigger per post, spec section 4.4). -/
theorem publish_post_republishes_terminal (cp : CreatePin) (db : DB)
    (pid uid : String) (post : Post) (conn : Connection)
    (hp : get_post db pid = some post)
    (_hterm : post.status = "published" ∨ post.status = "failed")
    (hc : get_pinterest_connection (connRead db uid) = some conn)
    (himg : pyTruthy post.image_base64 = true ∨ pyTruthy post.image_url = true) :
    (publish_post cp db pid uid).2.length = 1
    ∧ (publish_post cp db pid uid).2.all isCreatePinCall = true := by
  have hm : ∃ media,
      (if pyTruthy post.image_base64 then
         some (MediaSource.image_base64 (post.image_base64.getD ""))
       else if pyTruthy post.image_url then
         some (MediaSource.image_url (post.image_url.getD ""))
       else none) = some media := by
    by_cases hb : pyTruthy post.image_base64
    · exact ⟨MediaSource.image_base64 (post.image_base64.getD ""), by simp [hb]⟩
    · have hu : pyTruthy post.image_url = true := by
        rcases himg with h | h
        · exact absurd h hb
        · exact h
      exact ⟨MediaSource.image_url (post.image_url.getD ""), by simp [hb, hu]⟩
  obtain ⟨media, hm⟩ := hm
  unfold publish_post
  simp only [hp, hc, hm]
  cases cp conn.access_token post.board_id media post.title
      (post.description.getD "") (post.link.getD "") <;>
    exact ⟨rfl, rfl⟩

/-- Claim C2 witness: the amended theorem evaluated at the concrete terminal
post `p1` of `dbTerminal`. -/
theorem publish_post_republishes_terminal_witness :
    get_post dbTerminal "p1" = some postPublished
    ∧ (postPublished.status = "published" ∨ postPublished.status = "failed")
    ∧ get_pinterest_connection (connRead dbTerminal "u1") = some connU1
    ∧ (pyTruthy postPublished.image_base64 = true
       ∨ pyTruthy postPublished.image_url = true)
    ∧ ((publish_post cpPin2 dbTerminal "p1" "u1").2.length = 1
       ∧ (publish_post cpPin2 dbTerminal "p1" "u1").2.all isCreatePinCall = true) :=
  ⟨rfl, Or.inl rfl, rfl, Or.inr rfl,
   publish_post_republishes_terminal cpPin2 dbTerminal "p1" "u1" postPublished
     connU1 rfl (Or.inl rfl) rfl (Or.inr rfl)⟩

/-- Claim C3 counterexample: for the connection of `u1`, whose `expires_at`
(5) is in the past of any later instant (e.g. 1000) and which carries refresh
token `rt1`, the Publisher performs no token-refresh exchange: its external
trace is a single create-pin call made with the stale stored token
`staletok`, and the post becomes `published`, not `failed` with a
token-expired message. -/
theorem publish_post_no_refresh_cex :
    (connExpired.expires_at = some 5 ∧ (5 : Int) < 1000
     ∧ connExpired.refresh_token = some "rt1")
    ∧ (publish_post cpPin2 dbExpired "p1" "u1").2.any isRefreshCall = false
    ∧ (publish_post cpPin2 dbExpired "p1" "u1").2
        = [ExtCall.createPin "staletok" "b1"
             (MediaSource.image_url "http://img/a.png") "T" "" ""]
    ∧ get_post (publish_post cpPin2 dbExpired "p1" "u1").1 "p1"
        = some { postPublishing with
                   status := "published",
                   pinterest_pin_id := some "pin2" } :=
  ⟨⟨rfl, by decide, rfl⟩, rfl, rfl, rfl⟩

/-- Claim C3 (amended): at publish time the Publisher performs no expiry
check and no token refresh — its external-call trace never contains a
token-refresh exchange, whatever the connection's `expires_at` — and when the
connection is absent the post transitions to `failed` with the explicit error
message "Pinterest not connected" and the operation returns. -/
theorem publish_post_no_refresh (cp : CreatePin) (db : DB) (pid uid : String) :
    (publish_post cp db pid uid).2.any isRefreshCall = false
    ∧ (∀ post, get_post db pid = some post →
        get_pinterest_connection (connRead db uid) = none →
        publish_post cp db pid uid
          = (update_post_status db pid "failed" none
               (some "Pinterest not connected"), [])) := by
  constructor
  · unfold publish_post
    split
    · rfl
    · split
      · rfl
      · split
        · rfl
        · split <;> rfl
  · intro post hp hc
    unfold publish_post
    rw [hp, hc]

/-- Claim C3 witness: the amended theorem evaluated at the concrete store
`dbNoConn`, which holds post `p1` but no connection. -/
theorem publish_post_no_refresh_witness :
    get_post dbNoConn "p1" = some postPublishing
    ∧ get_pinterest_connection (connRead dbNoConn "u1") = none
    ∧ publish_post cpFail dbNoConn "p1" "u1"
        = (update_post_status dbNoConn "p1" "failed" none
             (some "Pinterest not connected"), []) :=
  ⟨rfl, rfl,
   (publish_post_no_refresh cpFail dbNoConn "p1" "u1").2 postPublishing rfl rfl⟩

/-- Claim C4: a publish-now request by a user with no stored Connection
fails with 401 "Pinterest not connected" and the store is returned unchanged
— in particular no Post record is created. -/
theorem publish_now_requires_connection (db : DB) (req : PublishNowRequest)
    (h : get_pinterest_connection (connRead db req.user_id) = none) :
    publish_now_endpoint db req
      = (Response.httpError 401 "Pinterest not connected", db) := by
  unfold publish_now_endpoint publish_now_core
  rw [h]
  rfl

/-- Claim C4 witness: the empty store holds no connection for `u1`, so the
publish-now request answers 401 and the store is unchanged. -/
theorem publish_now_requires_connection_witness :
    get_pinterest_connection (connRead dbEmpty reqPN.user_id) = none
    ∧ publish_now_endpoint dbEmpty reqPN
        = (Response.httpError 401 "Pinterest not connected", dbEmpty) :=
  ⟨rfl, publish_now_requires_connection dbEmpty reqPN rfl⟩

/-- Claim C5 evaluation at the failing input: a publish-now body supplying
only `image_base64` (and no `image_url`) is rejected by request validation
with 422, because `image_url` is a required field of `PublishNowRequest` and
`image_base64` is not a declared field at all; and even a request that does
pass validation dies with an AttributeError (answered as 500) reading the
undeclared `image_base64` attribute, before any Post is created — the
inline-image publish path is unreachable. -/
theorem publish_now_base64_only_rejected :
    bodyBase64Only.image_base64 = some "QUFBQQ"
    ∧ bodyBase64Only.image_url = none
    ∧ parsePublishNowRequest bodyBase64Only = Except.error 422
    ∧ publish_now_endpoint dbConnOnly reqPN
        = (Response.httpError 500 "object has no attribute image_base64", dbConnOnly) :=
  ⟨rfl, rfl, rfl, rfl⟩

/-- Claim C6: deferred scheduling with target time at or before now (delay ≤
0) invokes the Publisher immediately with zero wait; a strictly future target
waits exactly the remaining delay `scheduled_at - now` and then invokes the
Publisher once. -/
theorem schedule_publish_delay (cp : CreatePin) (db : DB) (pid uid : String)
    (s now : Int) :
    (s ≤ now → schedule_publish cp db pid uid s now
       = (0, publish_post cp db pid uid))
    ∧ (now < s → schedule_publish cp db pid uid s now
       = (s - now, publish_post cp db pid uid)) := by
  constructor
  · intro h
    unfold schedule_publish
    rw [if_neg (by omega)]
  · intro h
    unfold schedule_publish
    rw [if_pos (by omega)]

/-- Claim C6 witness: the delay semantics evaluated at a past target (5 ≤ 10:
no wait) and at a future target (60 at now = 10: wait 50). -/
theorem schedule_publish_delay_witness :
    ((5 : Int) ≤ 10
     ∧ schedule_publish cpFail dbEmpty "p1" "u1" 5 10
         = (0, publish_post cpFail dbEmpty "p1" "u1"))
    ∧ ((10 : Int) < 60
       ∧ schedule_publish cpFail dbEmpty "p1" "u1" 60 10
           = (50, publish_post cpFail dbEmpty "p1" "u1")) :=
  ⟨⟨by decide, (schedule_publish_delay cpFail dbEmpty "p1" "u1" 5 10).1 (by decide)⟩,
   ⟨by decide, (schedule_publish_delay cpFail dbEmpty "p1" "u1" 60 10).2 (by decide)⟩⟩

/-- Claim C7 evaluation: with a connected user, a schedule request whose
`scheduled_at` (50) is not strictly after now (1000) is rejected with 400 and
the store is unchanged (no Post created) — that half of the claim holds; but
a strictly-future request (1060) creates no Post either: the handler raises
AttributeError reading the undeclared `image_base64` field of
`SchedulePostRequest` and answers 500 before `create_post` runs, so no
`scheduled` Post and no `(post_id, status, scheduled_at)` response exist. -/
theorem schedule_post_no_success_path :
    schedule_post_endpoint dbConnOnly reqSchedPast 1000
      = (Response.httpError 400 "Scheduled time must be in the future", dbConnOnly)
    ∧ schedule_post_endpoint dbConnOnly reqSchedFut 1000
      = (Response.httpError 500 "object has no attribute image_base64", dbConnOnly) :=
  ⟨rfl, rfl⟩

/-- Claim C8 counterexample: an OAuth callback with an absent state token is
answered with a redirect to the frontend error URL — not with a 400 status. -/
theorem callback_invalid_state_not_400 :
    (pinterest_callback envCb dbEmpty "code1" "s1").1
      = Response.redirect "http://front?pinterest_error=true"
    ∧ isHttp400 (pinterest_callback envCb dbEmpty "code1" "s1").1 = false :=
  ⟨rfl, rfl⟩

/-- Claim C8 (amended): for every OAuth callback whose state token is absent,
expired, or replayed, the handler raises `HTTPException(400, "Invalid or
expired state parameter")` internally (the StateInvalidError), but the bare
`except Exception` of the callback converts it into a redirect to the
frontend carrying `pinterest_error=true` — the caller observes the redirect,
not a 400 status. -/
theorem callback_invalid_state_redirects (env : CallbackEnv) (db : DB)
    (code state : String)
    (h : (get_oauth_state db.oauth_states env.now env.state_max_age state).1 = none) :
    (pinterest_callback_core env db code state).1
      = Except.error (PyExc.http 400 "Invalid or expired state parameter")
    ∧ (pinterest_callback env db code state).1
      = Response.redirect (env.frontend_url ++ "?pinterest_error=true") := by
  rcases hg : get_oauth_state db.oauth_states env.now env.state_max_age state with ⟨u, st2⟩
  have hu : u = none := by rw [hg] at h; exact h
  subst hu
  have hc : pinterest_callback_core env db code state
      = (Except.error (PyExc.http 400 "Invalid or expired state parameter"),
         { db with oauth_states := st2 }) := by
    unfold pinterest_callback_core
    rw [hg]
  constructor
  · rw [hc]
  · unfold pinterest_callback
    rw [hc]

/-- Claim C8 witness: the amended theorem evaluated at the empty store, where
the state token `s1` is absent. -/
theorem callback_invalid_state_redirects_witness :
    (get_oauth_state dbEmpty.oauth_states envCb.now envCb.state_max_age "s1").1 = none
    ∧ (pinterest_callback_core envCb dbEmpty "code1" "s1").1
        = Except.error (PyExc.http 400 "Invalid or expired state parameter")
    ∧ (pinterest_callback envCb dbEmpty "code1" "s1").1
        = Response.redirect (envCb.frontend_url ++ "?pinterest_error=true") :=
  ⟨rfl, (callback_invalid_state_redirects envCb dbEmpty "code1" "s1" rfl).1,
   (callback_invalid_state_redirects envCb dbEmpty "code1" "s1" rfl).2⟩

/-- Claim C9: the post status update merges only the supplied optional
fields.  Every field other than `status`, `pinterest_pin_id` and
`error_message` is always left unchanged; an unsupplied (`none`)
`pinterest_pin_id` or `error_message` is left unchanged as well, so the
update with neither optional supplied changes exactly the status. -/
theorem update_post_status_frame (p : Post) (s : String)
    (pid em : Option String) :
    ((applyStatusUpdate p s pid em).id = p.id
     ∧ (applyStatusUpdate p s pid em).user_id = p.user_id
     ∧ (applyStatusUpdate p s pid em).board_id = p.board_id
     ∧ (applyStatusUpdate p s pid em).title = p.title
     ∧ (applyStatusUpdate p s pid em).description = p.description
     ∧ (applyStatusUpdate p s pid em).link = p.link
     ∧ (applyStatusUpdate p s pid em).image_url = p.image_url
     ∧ (applyStatusUpdate p s pid em).image_base64 = p.image_base64
     ∧ (applyStatusUpdate p s pid em).scheduled_at = p.scheduled_at)
    ∧ (applyStatusUpdate p s none em).pinterest_pin_id = p.pinterest_pin_id
    ∧ (applyStatusUpdate p s pid none).error_message = p.error_message
    ∧ applyStatusUpdate p s none none = { p with status := s } :=
  ⟨⟨rfl, rfl, rfl, rfl, rfl, rfl, rfl, rfl, rfl⟩, rfl, rfl, rfl⟩

/-- Claim C10: `get_pinterest_connection` never raises: it returns the first
stored row on a successful read, and `None` both when no row matches and when
the store read itself fails; a caller therefore observes a store failure as
"not connected" — the publish-now endpoint answers 401 and the status check
answers connected = false. -/
theorem get_pinterest_connection_total (e : String) (rows : List Connection)
    (db : DB) (req : PublishNowRequest) (uid : String) :
    get_pinterest_connection (Except.error e) = none
    ∧ get_pinterest_connection (Except.ok rows) = rows.head?
    ∧ (db.conn_read_error = some e →
        publish_now_endpoint db req
          = (Response.httpError 401 "Pinterest not connected", db)
        ∧ pinterest_status db uid = Response.json [("connected", "false")]) := by
  refine ⟨rfl, rfl, fun h => ⟨?_, ?_⟩⟩
  · have hcr : connRead db req.user_id = .error e := by
      unfold connRead
      rw [h]
    unfold publish_now_endpoint publish_now_core
    rw [hcr]
    rfl
  · have hcr : connRead db uid = .error e := by
      unfold connRead
      rw [h]
    unfold pinterest_status
    rw [hcr]
    rfl

/-- Claim C10 witness: on the store whose connection read raises, the
publish-now endpoint answers 401 and the status check answers
connected = false. -/
theorem get_pinterest_connection_total_witness :
    dbFault.conn_read_error = some "store read failed"
    ∧ (publish_now_endpoint dbFault reqPN
         = (Response.httpError 401 "Pinterest not connected", dbFault)
       ∧ pinterest_status dbFault "u1" = Response.json [("connected", "false")]) :=
  ⟨rfl,
   (get_pinterest_connection_total "store read failed" [] dbFault reqPN "u1").2.2 rfl⟩

end PinterestBackend
